import Mathlib

/-!
Verification of the rtmp1 stream supervision code against its specification.

The definitions below are a shallow embedding of the Python sources:

* `src/resilient_rtmp_streamer.py` — the exponential backoff of `ResilientStreamer.run`;
* `src/stream_manager.py` — `validate_rtmp_url` and `test_rtmp_connection`;
* `src/rtmp_streamer.py` — `start_streaming`, `_start_single_stream`, `stop_streaming`,
  `get_stream_status`, `_restart_all_streams` and the per-destination part of
  `_monitor_streams`;
* `src/background_service.py` — `start_streaming`, `_add_log`, `get_logs`.

External effects (spawning an ffmpeg process, polling it, terminating it) are made
explicit: a spawn is recorded as an event, and the liveness answers that `poll()`
would give are inputs of the embedded functions, so that every behaviour of the
code corresponds to one choice of those inputs.
-/

namespace Rtmp1

/-! ## Backoff policy (`ResilientStreamer.run`)

`backoff` starts at `1.0` and after every failed attempt the code executes
`time.sleep(backoff)` followed by `backoff = min(backoff * 2, 60)`.  The variable
only ever holds the values 1, 2, 4, 8, 16, 32, 60, so `Nat` models the Python
float exactly. -/

/-- One update of the backoff variable: `backoff = min(backoff * 2, 60)`. -/
def backoffStep (b : Nat) : Nat := min (b * 2) 60

/-- The delay slept before the retry that follows the `f`-th consecutive failure:
the initial value 1 updated `f` times by `backoffStep`. -/
def nextDelay (f : Nat) : Nat := backoffStep^[f] 1

/-! ## Destination URL validation (`StreamManager.validate_rtmp_url`)

The source checks `re.match(r'^rtmp(s)?://[^\s/$.?#].[^\s]*$', url)`.  The
matcher below reproduces that regular expression over the character list of the
URL, with Python semantics: `\s` is the ASCII whitespace class, `.` matches any
character except a newline, and `$` matches at the end of the string or just
before a trailing newline. -/

/-- The Python `\s` class (ASCII range). -/
def pyWs (c : Char) : Bool :=
  c == ' ' || c == '\t' || c == '\n' || c == '\r' || c == '\x0b' || c == '\x0c'

/-- The character class `[^\s/$.?#]` of the validation regex. -/
def headOk (c : Char) : Bool :=
  !(pyWs c) && c != '/' && c != '$' && c != '.' && c != '?' && c != '#'

/-- The `.` of the validation regex: any character except a newline. -/
def anyNoNl (c : Char) : Bool := c != '\n'

/-- `[^\s]*$` with Python semantics: a run of non-whitespace characters followed
by the end of the string, or by a single final newline. -/
def tailMatch : List Char → Bool
  | [] => true
  | c :: rest => if pyWs c then c == '\n' && rest.isEmpty else tailMatch rest

/-- The part of the regex after the scheme: `[^\s/$.?#].[^\s]*$`. -/
def bodyMatch : List Char → Bool
  | c1 :: c2 :: rest => headOk c1 && anyNoNl c2 && tailMatch rest
  | _ => false

/-- The full regex `^rtmp(s)?://[^\s/$.?#].[^\s]*$` on a character list. -/
def validateRtmpUrlChars : List Char → Bool
  | 'r' :: 't' :: 'm' :: 'p' :: 's' :: ':' :: '/' :: '/' :: body => bodyMatch body
  | 'r' :: 't' :: 'm' :: 'p' :: ':' :: '/' :: '/' :: body => bodyMatch body
  | _ => false

/-- Embeds `StreamManager.validate_rtmp_url`. -/
def validate_rtmp_url (s : String) : Bool := validateRtmpUrlChars s.data

/-- A character allowed inside the host component: not whitespace and neither
`/` nor `:`. -/
def hostChar (c : Char) : Bool := !(pyWs c) && c != '/' && c != ':'

/-- Second definition, written from the specification words only (section 6 of
the spec): after the scheme, a URL must have the shape `host[:port]/path` — a
nonempty host, an optional `:` followed by a nonempty digit port, then `/` and a
nonempty whitespace-free path.  It exists only to be compared with
`validate_rtmp_url`; the embedding of the code never uses it. -/
def specHostPortPath (cs : List Char) : Bool :=
  let hostSplit := cs.span hostChar
  if hostSplit.1.isEmpty then false
  else
    let afterPort :=
      match hostSplit.2 with
      | ':' :: r =>
        let portSplit := r.span (fun c => c.isDigit)
        if portSplit.1.isEmpty then none else some portSplit.2
      | r => some r
    match afterPort with
    | some ('/' :: p) => !p.isEmpty && p.all (fun c => !(pyWs c))
    | _ => false

/-- The full spec-worded pattern `proto://host[:port]/path` with a push
transport scheme (`rtmp` or `rtmps`). -/
def specUrlMatch : List Char → Bool
  | 'r' :: 't' :: 'm' :: 'p' :: 's' :: ':' :: '/' :: '/' :: body => specHostPortPath body
  | 'r' :: 't' :: 'm' :: 'p' :: ':' :: '/' :: '/' :: body => specHostPortPath body
  | _ => false

/-! ## Connection test (`StreamManager.test_rtmp_connection`) -/

/-- Possible outcomes of the short-lived ffmpeg test process (an input of the
model, chosen by the environment). -/
inductive TestOutcome where
  | exitZero
  | exitNonZero
  | timedOut
deriving Repr, DecidableEq

/-- The dictionary returned by `test_rtmp_connection`. -/
structure TestResult where
  success : Bool
  message : Option String
  error : Option String
deriving Repr, DecidableEq

/-- Embeds `StreamManager.test_rtmp_connection`.  Returns the result dictionary
together with the list of URLs for which an ffmpeg test process was spawned:
on a URL rejected by `validate_rtmp_url` the function returns before any
`subprocess.run`, so the spawn list is empty. -/
def test_rtmp_connection (url : String) (outcome : TestOutcome) :
    TestResult × List String :=
  if validate_rtmp_url url then
    match outcome with
    | TestOutcome.exitZero =>
      (⟨true, some "RTMP connection test successful", none⟩, [url])
    | TestOutcome.exitNonZero =>
      (⟨false, none, some "RTMP test failed"⟩, [url])
    | TestOutcome.timedOut =>
      (⟨false, none, some "RTMP connection test timed out"⟩, [url])
  else
    (⟨false, none, some "Invalid RTMP URL format"⟩, [])

/-! ## Destinations and the start path
(`RTMPStreamer.start_streaming`, `RTMPStreamer._start_single_stream`,
`BackgroundService.start_streaming`) -/

/-- A destination dictionary `{name, url, enabled}`; `enabled` is the value of
`dest.get('enabled', True)`. -/
structure Destination where
  name : String
  url : String
  enabled : Bool
deriving Repr, DecidableEq

/-- Observable outcome of a start call: the returned boolean, the destinations
for which `subprocess.Popen` was reached (a spawn happens even if the process
dies during the 0.5 s startup check), and the destinations rejected by URL
validation before any spawn (each is logged as an invalid-URL error). -/
structure StartOutcome where
  ok : Bool
  spawned : List String
  invalidUrlErrors : List String
deriving Repr, DecidableEq

/-- Embeds `RTMPStreamer._start_single_stream`.  `survives d.name` answers
whether the spawned process is still alive at the `poll()` 0.5 s after the
spawn; if validation fails the function returns `False` before `Popen`. -/
def startSingleStream (survives : String → Bool) (d : Destination) : StartOutcome :=
  if validate_rtmp_url d.url then ⟨survives d.name, [d.name], []⟩
  else ⟨false, [], [d.name]⟩

/-- Embeds `RTMPStreamer.start_streaming`: refuse if already running, then try
`_start_single_stream` for every enabled destination and succeed when at least
one started. -/
def start_streaming (running : Bool) (survives : String → Bool)
    (dests : List Destination) : StartOutcome :=
  if running then ⟨false, [], []⟩
  else
    let outs := (dests.filter (fun d => d.enabled)).map (startSingleStream survives)
    ⟨0 < (outs.filter (fun o => o.ok)).length,
     (outs.map (fun o => o.spawned)).flatten,
     (outs.map (fun o => o.invalidUrlErrors)).flatten⟩

/-- Embeds `BackgroundService.start_streaming`: compute the enabled subset; if
it is empty, log a warning and return `False` before calling the streamer (so
before any spawn); otherwise delegate to `RTMPStreamer.start_streaming` with the
enabled subset. -/
def bg_start_streaming (running : Bool) (survives : String → Bool)
    (dests : List Destination) : StartOutcome :=
  let enabledDests := dests.filter (fun d => d.enabled)
  if enabledDests.isEmpty then ⟨false, [], []⟩
  else start_streaming running survives enabledDests

/-! ## Stop path and status
(`RTMPStreamer.stop_streaming`, `RTMPStreamer.get_stream_status`) -/

/-- One entry of `ffmpeg_processes` together with the liveness answers its
process gives during a stop: `aliveAtPoll` is the `poll()` result when
`stop_streaming` examines it, `exitsOnTerminate` says whether it exits within
the 2 s grace period after `terminate()`. -/
structure ProcInfo where
  name : String
  rtmpUrl : String
  startTime : Nat
  aliveAtPoll : Bool
  exitsOnTerminate : Bool
deriving Repr, DecidableEq

/-- The mutable state of an `RTMPStreamer`: the `ffmpeg_processes` map (as an
ordered list of entries) and the `running` flag. -/
structure StreamerState where
  procs : List ProcInfo
  running : Bool
deriving Repr, DecidableEq

/-- Signals sent to a process during shutdown. -/
inductive StopAction where
  | terminate (name : String)
  | kill (name : String)
deriving Repr, DecidableEq

/-- The signals `stop_streaming` sends to one process: nothing if it is already
dead; `terminate()` if alive, followed by `kill()` when it is still alive 2 s
later. -/
def stopActionsFor (p : ProcInfo) : List StopAction :=
  if p.aliveAtPoll then
    if p.exitsOnTerminate then [StopAction.terminate p.name]
    else [StopAction.terminate p.name, StopAction.kill p.name]
  else []

/-- Embeds `RTMPStreamer.stop_streaming`: set `running = False`, send the
shutdown signals to every tracked process, clear the map, return `True`.  The
result is the new state, the returned boolean, and the list of signals sent. -/
def stop_streaming (s : StreamerState) : StreamerState × Bool × List StopAction :=
  (⟨[], false⟩, true, (s.procs.map stopActionsFor).flatten)

/-- A process is certainly dead after a stop that issued `acts`: either it was
already dead, or it received `terminate()` and either honoured it or was
force-killed (`SIGKILL` is definitive). -/
def deadAfterStop (acts : List StopAction) (p : ProcInfo) : Bool :=
  !p.aliveAtPoll ||
    (decide (StopAction.terminate p.name ∈ acts) &&
      (p.exitsOnTerminate || decide (StopAction.kill p.name ∈ acts)))

/-- One element of the `active_streams` list returned by `get_stream_status`. -/
structure StreamEntryStatus where
  name : String
  url : String
  running : Bool
  start_time : Nat
  uptime : Nat
deriving Repr, DecidableEq

/-- The dictionary returned by `get_stream_status`. -/
structure StatusSnapshot where
  total_streams : Nat
  active_streams : List StreamEntryStatus
  running : Bool
deriving Repr, DecidableEq

/-- Embeds `RTMPStreamer.get_stream_status` at clock value `now`:
`total_streams` is the size of the process map and each entry reports its
`poll()` liveness and uptime. -/
def get_stream_status (now : Nat) (s : StreamerState) : StatusSnapshot :=
  ⟨s.procs.length,
   s.procs.map (fun p =>
     ⟨p.name, p.rtmpUrl, p.aliveAtPoll, p.startTime,
      if p.aliveAtPoll then now - p.startTime else 0⟩),
   s.running⟩

/-! ## Source-triggered global restart (`RTMPStreamer._restart_all_streams`)

The code terminates every process that polls alive, sleeps a fixed 3 s, clears
the map and spawns a fresh process for every enabled destination.  It never
re-polls and never calls `kill()`, so a process that ignores the terminate
signal for more than 3 s is still alive when the new generation is spawned. -/

/-- A process of the old generation: `aliveAtCheck` is its `poll()` answer when
the restart examines it; `exitsWithinSleep` says whether it exits within the
3 s sleep that follows `terminate()`. -/
structure OldProc where
  name : String
  aliveAtCheck : Bool
  exitsWithinSleep : Bool
deriving Repr, DecidableEq

/-- Embeds `RTMPStreamer._restart_all_streams`.  Returns the names of the
old-generation processes that are still alive at the moment the new generation
is spawned, and the names of the newly spawned processes. -/
def restartAllStreams (old : List OldProc) (survives : String → Bool)
    (dests : List Destination) : List String × List String :=
  let stillAlive :=
    (old.filter (fun p => p.aliveAtCheck && !p.exitsWithinSleep)).map (fun p => p.name)
  let spawned :=
    ((dests.filter (fun d => d.enabled)).map
      (fun d => (startSingleStream survives d).spawned)).flatten
  (stillAlive, spawned)

/-! ## Monitor loop, per-destination part (`RTMPStreamer._monitor_streams`)

The claims about the monitor concern one destination observed through
consecutive 5 s iterations with the source status unchanged (so the Twitch
branch of lines 197–209 is not taken).  The tick below embeds lines 211–243 of
`src/rtmp_streamer.py` for a single enabled destination:

1. if the destination has a process in `ffmpeg_processes` and it polls dead,
   increment `consecutive_failures`;
2. if the incremented count is `<= max_failures` restart it immediately
   (`_restart_single_stream` removes the old entry and re-adds the destination
   only when the new spawn survives its 0.5 s startup check); otherwise, when
   `current_time % 60 < 5`, reset the counter to zero and restart; otherwise
   leave the dead process in the map and wait;
3. finally the healthy-stream scan sets the counter of every destination whose
   mapped process polls alive back to zero — including a process restarted
   moments earlier in the same iteration. -/

/-- `max_failures = 3` in `_monitor_streams`. -/
def max_failures : Nat := 3

/-- What the monitor does for the destination during one iteration. -/
inductive MonitorAction where
  | noAction
  | immediateRestart
  | cooldownRestart
  | cooldownWait
deriving Repr, DecidableEq

/-- Monitor-visible state of one destination: whether it has an entry in
`ffmpeg_processes` and its `consecutive_failures` count. -/
structure MonitorState where
  inMap : Bool
  failures : Nat
deriving Repr, DecidableEq

/-- The observations one iteration makes: the first `poll()` answer, the clock
(`now` seconds, used as `now % 60 < 5`), whether a restarted process survives
its 0.5 s startup check, and the `poll()` answer at the healthy-stream scan. -/
structure TickObs where
  deadAtPoll : Bool
  now : Nat
  restartSpawnOk : Bool
  aliveAtHealthyCheck : Bool
deriving Repr, DecidableEq

/-- One monitor iteration for the destination, returning the next state and the
action taken.  A destination whose restart fails disappears from the map; a
dead process that is not restarted stays in the map (and keeps polling dead, so
the healthy scan never resets its counter). -/
def monitorTick (s : MonitorState) (o : TickObs) : MonitorState × MonitorAction :=
  if s.inMap && o.deadAtPoll then
    let failures1 := s.failures + 1
    if failures1 ≤ max_failures then
      let inMap1 := o.restartSpawnOk
      let failures2 := if inMap1 && o.aliveAtHealthyCheck then 0 else failures1
      (⟨inMap1, failures2⟩, MonitorAction.immediateRestart)
    else if o.now % 60 < 5 then
      (⟨o.restartSpawnOk, 0⟩, MonitorAction.cooldownRestart)
    else
      (⟨true, failures1⟩, MonitorAction.cooldownWait)
  else
    let failures2 := if s.inMap && o.aliveAtHealthyCheck then 0 else s.failures
    (⟨s.inMap, failures2⟩, MonitorAction.noAction)

/-- The observation of an iteration in which the process polls dead, the clock
is away from the minute mark, and the restarted process survives its startup
check but is dead again by the healthy scan (a process that exits within a few
seconds of connecting, as in the repeated-exit scenarios). -/
def deadObs : TickObs := ⟨true, 30, true, false⟩

/-! ## Log buffer (`BackgroundService._add_log`, `BackgroundService.get_logs`) -/

/-- One log entry `{timestamp, level, message}`. -/
structure LogEntry where
  timestamp : String
  level : String
  message : String
deriving Repr, DecidableEq

/-- `self.max_logs = 100`. -/
def max_logs : Nat := 100

/-- Embeds `BackgroundService._add_log`: append the entry, then if the list
exceeds `max_logs` keep only the last `max_logs` entries
(`self.logs = self.logs[-self.max_logs:]`). -/
def add_log (logs : List LogEntry) (e : LogEntry) : List LogEntry :=
  let l2 := logs ++ [e]
  if max_logs < l2.length then l2.drop (l2.length - max_logs) else l2

/-- Embeds `BackgroundService.get_logs`: `return self.logs.copy()` — the value
of the internal list; the `.copy()` makes the returned object distinct from the
internal one, so in the value model it is the identity. -/
def get_logs (logs : List LogEntry) : List LogEntry := logs

/-- The Python slice `l[-n:]`: the last `n` elements (all of them when the list
is shorter). -/
def lastN (n : Nat) (l : List α) : List α := l.drop (l.length - n)

/-! ## Helper lemmas -/

theorem nextDelay_eq (f : Nat) : nextDelay f = min (2 ^ f) 60 := by
  induction f with
  | zero => decide
  | succ n ih =>
    rw [nextDelay, Function.iterate_succ_apply', ← nextDelay, ih, backoffStep]
    have h2 : 2 ^ (n + 1) = 2 ^ n * 2 := pow_succ 2 n
    omega

theorem lastN_eq_rtake (n : Nat) (l : List α) : lastN n l = l.rtake n := rfl

theorem lastN_append_lastN (n : Nat) (xs ys : List α) :
    lastN n (lastN n xs ++ ys) = lastN n (xs ++ ys) := by
  rw [lastN_eq_rtake, lastN_eq_rtake, lastN_eq_rtake,
    List.rtake_eq_reverse_take_reverse, List.rtake_eq_reverse_take_reverse,
    List.rtake_eq_reverse_take_reverse,
    List.reverse_append, List.reverse_reverse, List.reverse_append,
    List.take_append_eq_append_take, List.take_append_eq_append_take,
    List.take_take]
  congr 3
  omega

theorem lastN_length_le (n : Nat) (l : List α) : (lastN n l).length ≤ n := by
  simp only [lastN, List.length_drop]
  omega

theorem add_log_eq_lastN (logs : List LogEntry) (e : LogEntry) :
    add_log logs e = lastN max_logs (logs ++ [e]) := by
  unfold add_log lastN
  rcases lt_or_le max_logs (logs ++ [e]).length with hgt | hle
  · simp only [if_pos hgt]
  · simp only [if_neg (not_lt.mpr hle), Nat.sub_eq_zero_of_le hle, List.drop_zero]

theorem foldl_add_log (es : List LogEntry) :
    ∀ logs : List LogEntry, logs.length ≤ max_logs →
      es.foldl add_log logs = lastN max_logs (logs ++ es) := by
  induction es with
  | nil =>
    intro logs h
    simp only [List.foldl_nil, List.append_nil, lastN, Nat.sub_eq_zero_of_le h,
      List.drop_zero]
  | cons e es ih =>
    intro logs h
    have hlen : (add_log logs e).length ≤ max_logs := by
      rw [add_log_eq_lastN]; exact lastN_length_le _ _
    rw [List.foldl_cons, ih _ hlen, add_log_eq_lastN, lastN_append_lastN,
      List.append_assoc, List.singleton_append]

/-! ## Claims -/

/-- Claim C1: the backoff policy of `ResilientStreamer.run` is the pure function
`nextDelay f = min (1 * 2 ^ f, 60)` (durations in seconds): for every
non-negative failure count the delay is at most 60 s, the delay is
monotonically non-decreasing in the failure count, it saturates at the 60 s cap
(from the sixth failure on) without overflowing, and failure count 0 yields the
1 s base delay, not zero. -/
theorem c1_backoff_policy :
    (∀ f, nextDelay f = min (2 ^ f) 60) ∧
    nextDelay 0 = 1 ∧
    (∀ f, nextDelay f ≤ 60) ∧
    (∀ f, nextDelay f ≤ nextDelay (f + 1)) ∧
    (∀ f, nextDelay (6 + f) = 60) := by
  refine ⟨nextDelay_eq, by decide, fun f => ?_, fun f => ?_, fun f => ?_⟩
  · rw [nextDelay_eq]
    exact min_le_right _ _
  · rw [nextDelay_eq, nextDelay_eq]
    have h : (2 : Nat) ^ f ≤ 2 ^ (f + 1) :=
      Nat.pow_le_pow_right (by norm_num) (Nat.le_succ f)
    omega
  · rw [nextDelay_eq]
    have h : (64 : Nat) ≤ 2 ^ (6 + f) := by
      calc (64 : Nat) = 2 ^ 6 := by norm_num
        _ ≤ 2 ^ (6 + f) := Nat.pow_le_pow_right (by norm_num) (by omega)
    omega

/-- Claim C2: a call to `BackgroundService.start_streaming` whose destination
list has an empty enabled subset spawns no external process and fails (returns
`False`) before any streamer call. -/
theorem c2_no_enabled_destinations (dests : List Destination)
    (survives : String → Bool) (running : Bool)
    (h : dests.filter (fun d => d.enabled) = []) :
    bg_start_streaming running survives dests = ⟨false, [], []⟩ := by
  simp [bg_start_streaming, h]

theorem c2_no_enabled_destinations_witness :
    ([⟨"A", "rtmp://live.example.com/app", false⟩] : List Destination).filter
      (fun d => d.enabled) = [] ∧
    bg_start_streaming false (fun _ => true)
      [⟨"A", "rtmp://live.example.com/app", false⟩] = ⟨false, [], []⟩ :=
  ⟨by decide, c2_no_enabled_destinations _ _ _ (by decide)⟩

/-- Claim C3 counterexample: a destination whose process is observed dead for
the third consecutive time still receives an immediate restart.  Starting from
a clean state, three iterations each observe an exit (`deadObs`: dead at the
poll, restart spawn succeeds, dead again before the healthy scan); the third
iteration increments the counter to 3 and, since `3 <= max_failures`, the
monitor takes the immediate-restart branch — contradicting the claim that after
exactly the third consecutive observed exit no immediate restart is attempted
(cooldown begins only once the count exceeds 3, on the fourth exit). -/
theorem c3_third_exit_counterexample :
    monitorTick ⟨true, 0⟩ deadObs = (⟨true, 1⟩, MonitorAction.immediateRestart) ∧
    monitorTick ⟨true, 1⟩ deadObs = (⟨true, 2⟩, MonitorAction.immediateRestart) ∧
    monitorTick ⟨true, 2⟩ deadObs = (⟨true, 3⟩, MonitorAction.immediateRestart) := by
  decide

/-- Claim C3 (amended): a destination is restarted immediately as long as its
incremented consecutive-failure count is at most `max_failures = 3` (so the
third consecutive exit still gets an immediate restart); once the count exceeds
3 — from the fourth consecutive observed exit on — no immediate restart is
attempted and restarts move to the fixed 60 s cooldown cadence (attempted only
when `current_time % 60 < 5`, otherwise the monitor waits). -/
theorem c3_cooldown_after_exceeding_max :
    (∀ s o, s.inMap = true → o.deadAtPoll = true →
      s.failures + 1 ≤ max_failures →
      (monitorTick s o).2 = MonitorAction.immediateRestart) ∧
    (∀ s o, s.inMap = true → o.deadAtPoll = true →
      max_failures < s.failures + 1 →
      (monitorTick s o).2 ≠ MonitorAction.immediateRestart ∧
      (monitorTick s o).2 = (if o.now % 60 < 5 then MonitorAction.cooldownRestart
        else MonitorAction.cooldownWait)) := by
  constructor
  · intro s o hin hdead hle
    simp [monitorTick, hin, hdead, hle]
  · intro s o hin hdead hgt
    have hnle : ¬ (s.failures + 1 ≤ max_failures) := by omega
    constructor
    · simp only [monitorTick, hin, hdead, Bool.and_self, if_true, if_neg hnle]
      split <;> simp
    · simp only [monitorTick, hin, hdead, Bool.and_self, if_true, if_neg hnle]
      split <;> rfl

theorem c3_cooldown_witness :
    (monitorTick ⟨true, 2⟩ deadObs).2 = MonitorAction.immediateRestart ∧
    (monitorTick ⟨true, 3⟩ deadObs).2 ≠ MonitorAction.immediateRestart :=
  ⟨c3_cooldown_after_exceeding_max.1 ⟨true, 2⟩ deadObs rfl rfl (by decide),
   (c3_cooldown_after_exceeding_max.2 ⟨true, 3⟩ deadObs rfl rfl (by decide)).1⟩

/-- Claim C4 (code bug): `_restart_all_streams` only sends `terminate()` to the
processes that poll alive, sleeps a fixed 3 s, clears the map and spawns the
new generation; it never re-polls and never calls `kill()`.  A process that
ignores the terminate signal for longer than the 3 s sleep is therefore still
alive when its replacement is spawned: here the old process for destination A
(alive at the check, not exiting within the sleep) is in the still-alive list
at the very moment the new process for A is spawned — both generations are
live, contradicting the required full teardown before any replacement spawn. -/
theorem c4_generation_overlap :
    restartAllStreams [⟨"A", true, false⟩] (fun _ => true)
      [⟨"A", "rtmp://live.example.com/app", true⟩] = (["A"], ["A"]) := by
  decide

/-- Claim C5 counterexample: the consecutive-failure counter is reset by the
healthy scan of the very iteration that restarted the process.  With the count
at 2, the process is observed dead, the counter goes to 3, the immediate
restart spawns a fresh process, and the healthy scan of the same 5 s iteration
observes it alive and sets the counter back to 0 — the process has been alive
for far less than one full monitor interval, contradicting the claim that the
reset happens exactly when the process has been alive longer than one
interval. -/
theorem c5_same_tick_reset_counterexample :
    monitorTick ⟨true, 2⟩ ⟨true, 30, true, true⟩ =
      (⟨true, 0⟩, MonitorAction.immediateRestart) := by
  decide

/-- Claim C5 (amended): the consecutive-failure counter of a destination resets
to zero whenever its mapped process is observed alive at the healthy scan of a
monitor iteration — with no minimum alive tenure: both for a process that
simply polls alive at an iteration and for a process restarted earlier in the
same iteration (alive for less than one monitor interval). -/
theorem c5_reset_on_alive_poll :
    (∀ s o, s.inMap = true → o.deadAtPoll = false →
      o.aliveAtHealthyCheck = true → (monitorTick s o).1.failures = 0) ∧
    (∀ s o, s.inMap = true → o.deadAtPoll = true →
      s.failures + 1 ≤ max_failures → o.restartSpawnOk = true →
      o.aliveAtHealthyCheck = true → (monitorTick s o).1.failures = 0) := by
  constructor
  · intro s o hin hdead halive
    simp [monitorTick, hin, hdead, halive]
  · intro s o hin hdead hle hok halive
    simp [monitorTick, hin, hdead, hle, hok, halive]

theorem c5_reset_witness :
    (monitorTick ⟨true, 5⟩ ⟨false, 30, false, true⟩).1.failures = 0 ∧
    (monitorTick ⟨true, 2⟩ ⟨true, 30, true, true⟩).1.failures = 0 :=
  ⟨c5_reset_on_alive_poll.1 ⟨true, 5⟩ ⟨false, 30, false, true⟩ rfl rfl rfl,
   c5_reset_on_alive_poll.2 ⟨true, 2⟩ ⟨true, 30, true, true⟩ rfl rfl (by decide)
     rfl rfl⟩

/-- Claim C6: `stop_streaming` is idempotent.  The first call returns `True`;
calling it again on the resulting state returns `True`, sends no signal and
leaves the empty process map unchanged; and no process is leaked: every process
tracked before the stop is certainly dead afterwards (dead already, terminated,
or force-killed after ignoring the terminate signal). -/
theorem c6_stop_idempotent (s : StreamerState) :
    (stop_streaming s).2.1 = true ∧
    stop_streaming (stop_streaming s).1 = (⟨[], false⟩, true, []) ∧
    s.procs.all (deadAfterStop (stop_streaming s).2.2) = true := by
  refine ⟨rfl, rfl, ?_⟩
  rw [List.all_eq_true]
  intro p hp
  by_cases ha : p.aliveAtPoll
  · have hmem : ∀ x ∈ stopActionsFor p,
        x ∈ (stop_streaming s).2.2 := by
      intro x hx
      show x ∈ (s.procs.map stopActionsFor).flatten
      rw [List.mem_flatten]
      exact ⟨stopActionsFor p, List.mem_map_of_mem _ hp, hx⟩
    by_cases he : p.exitsOnTerminate
    · have hterm := hmem (StopAction.terminate p.name)
        (by simp [stopActionsFor, ha, he])
      simp [deadAfterStop, ha, he, hterm]
    · have hterm := hmem (StopAction.terminate p.name)
        (by simp [stopActionsFor, ha, he])
      have hkill := hmem (StopAction.kill p.name)
        (by simp [stopActionsFor, ha, he])
      simp [deadAfterStop, ha, he, hterm, hkill]
  · simp [deadAfterStop, ha]

/-- Claim C7: after a completed `stop_streaming`, `get_stream_status` reports
zero live processes — `total_streams = 0`, an empty `active_streams` list (so
no per-destination entry is running) and `running = False` — and the process
map is empty, so the report stays this way until a successful new start
repopulates the map. -/
theorem c7_status_after_stop (s : StreamerState) (now : Nat) :
    get_stream_status now (stop_streaming s).1 = ⟨0, [], false⟩ ∧
    (stop_streaming s).1.procs = [] :=
  ⟨rfl, rfl⟩

/-- Claim C8 counterexample: the URL accepted set is not the spec pattern
`proto://host[:port]/path`.  The code validator accepts `rtmp://ab`, which has
no `/path` component at all and does not match the spec-worded pattern. -/
theorem c8_pattern_counterexample :
    validate_rtmp_url "rtmp://ab" = true ∧
    specUrlMatch ("rtmp://ab".data) = false := by
  decide

/-- Claim C8 (amended): destination URL validation precedes every spawn, and a
URL is accepted if and only if it matches the code regex
`^rtmp(s)?://[^\s/$.?#].[^\s]*$` (scheme `rtmp` or `rtmps`, at least two more
characters, no internal whitespace) — which, unlike the spec pattern, does not
require a `host[:port]/path` shape.  Every URL rejected by this check is
refused by the per-destination start path (no `Popen`) and by
`test_rtmp_connection` (`success = False` with an error string, no process);
every accepted URL leads to exactly one spawn in either path. -/
theorem c8_validation_gates_spawn :
    (∀ (survives : String → Bool) (d : Destination),
      validate_rtmp_url d.url = false →
      startSingleStream survives d = ⟨false, [], [d.name]⟩) ∧
    (∀ (url : String) (oc : TestOutcome), validate_rtmp_url url = false →
      test_rtmp_connection url oc =
        (⟨false, none, some "Invalid RTMP URL format"⟩, [])) ∧
    (∀ (survives : String → Bool) (d : Destination),
      validate_rtmp_url d.url = true →
      (startSingleStream survives d).spawned = [d.name]) ∧
    (∀ (url : String) (oc : TestOutcome), validate_rtmp_url url = true →
      (test_rtmp_connection url oc).2 = [url]) := by
  refine ⟨?_, ?_, ?_, ?_⟩
  · intro survives d h
    simp [startSingleStream, h]
  · intro url oc h
    simp [test_rtmp_connection, h]
  · intro survives d h
    simp [startSingleStream, h]
  · intro url oc h
    cases oc <;> simp [test_rtmp_connection, h]

theorem c8_validation_witness :
    validate_rtmp_url "not-a-valid-url" = false ∧
    test_rtmp_connection "not-a-valid-url" TestOutcome.exitZero =
      (⟨false, none, some "Invalid RTMP URL format"⟩, []) ∧
    (startSingleStream (fun _ => true)
      ⟨"A", "rtmp://live.example.com/app", true⟩).spawned = ["A"] :=
  ⟨by decide,
   c8_validation_gates_spawn.2.1 "not-a-valid-url" TestOutcome.exitZero
     (by decide),
   c8_validation_gates_spawn.2.2.1 (fun _ => true)
     ⟨"A", "rtmp://live.example.com/app", true⟩ (by decide)⟩

/-- Claim C9: of the two policies the spec allows, the code implements the
per-destination one.  Started with destination A carrying a valid URL and
destination B carrying a malformed one, the job starts (`True` is returned), a
process is spawned exactly for A, and B is skipped with a logged invalid-URL
configuration error and no process — so exactly one of the two policies holds
(the all-or-nothing rejection policy is refuted by the same run, since A's
process is spawned). -/
theorem c9_per_destination_policy :
    validate_rtmp_url "rtmp://live.example.com/app/key" = true ∧
    validate_rtmp_url "not-a-valid-url" = false ∧
    bg_start_streaming false (fun _ => true)
      [⟨"A", "rtmp://live.example.com/app/key", true⟩,
       ⟨"B", "not-a-valid-url", true⟩] = ⟨true, ["A"], ["B"]⟩ := by
  decide

/-- Claim C10: starting from the empty log list of `BackgroundService.__init__`,
after any sequence of `_add_log` operations the in-memory log list holds at
most `max_logs = 100` entries and exactly the most recent ones (the final
segment of everything appended), and `get_logs` returns that list as a value —
the source returns `self.logs.copy()`, so the caller never holds the internal
list itself. -/
theorem c10_log_buffer (es : List LogEntry) :
    (es.foldl add_log []).length ≤ max_logs ∧
    es.foldl add_log [] = lastN max_logs es ∧
    get_logs (es.foldl add_log []) = es.foldl add_log [] := by
  have h := foldl_add_log es [] (by simp)
  rw [List.nil_append] at h
  refine ⟨?_, h, rfl⟩
  rw [h]
  exact lastN_length_le _ _

end Rtmp1
